import Mathlib

/-!
# Verification of the Trinity Validator program (`trinity_validator.rs`)

Shallow embedding of the on-ledger Trinity Validator module of the
Chronos-Vault contracts repository, together with proofs of the spec's
claims about it.

Modelling conventions:
* A Rust `[u8; N]` byte array is a `List Nat` of length `N` whose entries
  are below 256; where a claim needs the length it appears as a hypothesis.
* Rust's `<` on byte arrays is unsigned lexicographic comparison,
  embedded as `bytesLt`.
* `Pubkey` values are opaque identities, embedded as `Nat`; where the code
  feeds a pubkey's 32 raw bytes to the hash (`user.as_ref()`), the
  embedding renders the `Nat` injectively through `pubkeyBytes`.
* The Keccak hash `hashv` from `solana_program` is external to the
  repository; every definition is parametrised over an arbitrary function
  `hashv : List (List Nat) → List Nat` taking the list of byte slices the
  code passes.  Witnesses instantiate it with the concrete `hashvModel`.
* Anchor account resolution runs before the instruction body: the
  `#[derive(Accounts)]` constraints (`init`, which fails when an account
  for the derived address already exists; `has_one`, which fails when the
  stored field differs from the given account) are checked first, and the
  handler runs only when they pass.  The embedding performs those checks
  in that order and reports them with the error names the specification
  assigns to them (`DuplicateRecord`, `Unauthorized`, `OperationNotFound`).
* Each instruction is a function `ProgramState → … → Except TrinityError
  ProgramState`: an `Except.error` result is an aborted transaction,
  i.e. no state change at all.
* `Clock::get()?.unix_timestamp` is provided by the ledger; it enters the
  embedding as an explicit parameter `now : Nat` (timestamps are
  non-negative and both `Clock` reads inside one transaction agree).
-/

/-- 32-byte (or generally fixed-width) byte strings, as lists of bytes. -/
abbrev Bytes := List Nat

/-- Rust's `PartialOrd` comparison `a < b` on byte arrays/slices:
unsigned lexicographic order, elementwise, shorter prefix first. -/
def bytesLt : Bytes → Bytes → Bool
  | [], [] => false
  | [], _ :: _ => true
  | _ :: _, [] => false
  | a :: as, b :: bs =>
    if a < b then true else if b < a then false else bytesLt as bs

/-- `calculate_merkle_root` from `trinity_validator.rs`: fold the ordered
sibling path into the running hash, at each step putting the smaller
32-byte value first before hashing. -/
def calculate_merkle_root (hashv : List Bytes → Bytes)
    (proof : List Bytes) (leaf : Bytes) : Bytes :=
  proof.foldl
    (fun current_hash proof_element =>
      if bytesLt current_hash proof_element then
        hashv [current_hash, proof_element]
      else
        hashv [proof_element, current_hash])
    leaf

/-- Concrete stand-in hash used by witnesses (the real Keccak lives
outside the repository; no claim depends on hash-function properties). -/
def hashvModel (chunks : List Bytes) : Bytes :=
  257 :: chunks.foldr (fun c acc => (256 + c.length) :: c ++ acc) []

/-- Little-endian byte rendering of a `u64` (`to_le_bytes`). -/
def u64LeBytes (n : Nat) : Bytes :=
  (List.range 8).map fun i => n / 256 ^ i % 256

/-- The 32 raw bytes of a pubkey (`user.as_ref()`); pubkeys are opaque
`Nat` identities, rendered injectively little-endian. -/
def pubkeyBytes (k : Nat) : Bytes :=
  (List.range 32).map fun i => k / 256 ^ i % 256

/-- `OperationType` from `trinity_validator.rs`. -/
inductive OperationType where
  | VaultWithdrawal
  | HTLCSwap
  | EmergencyRecovery
  | CrossChainTransfer
deriving DecidableEq, Repr

/-- Rust discriminant of `operation_type as u8` (declaration order). -/
def OperationType.toU8 : OperationType → Nat
  | .VaultWithdrawal => 0
  | .HTLCSwap => 1
  | .EmergencyRecovery => 2
  | .CrossChainTransfer => 3

/-- The `TrinityValidator` registry account (singleton PDA). -/
structure TrinityValidator where
  authority : Nat
  ethereum_bridge_address : Bytes
  validator_ethereum_address : Bytes
  arbitrum_rpc_url : String
  total_proofs_submitted : Nat
  last_processed_operation : Nat
  is_active : Bool
  bump : Nat
deriving DecidableEq, Repr

/-- The `ProofRecord` account (one PDA per operation id). -/
structure ProofRecord where
  operation_id : Bytes
  merkle_root : Bytes
  merkle_proof : List Bytes
  solana_block_hash : Bytes
  solana_tx_signature : Bytes
  solana_block_number : Nat
  timestamp : Nat
  submitted_to_ethereum : Bool
  ethereum_tx_hash : Bytes
  validator : Nat
deriving DecidableEq, Repr

/-- The `VaultVerification` account (one PDA per vault id). -/
structure VaultVerification where
  vault_id : Nat
  operation_type : OperationType
  amount : Nat
  user : Nat
  verification_hash : Bytes
  timestamp : Nat
  validator : Nat
deriving DecidableEq, Repr

/-- The notifications the program `emit!`s. -/
inductive Event where
  | ProofGenerated (operation_id merkle_root solana_block_hash : Bytes)
      (solana_block_number timestamp : Nat)
  | OperationVerified (vault_id : Nat) (operation_type : OperationType)
      (amount : Nat) (user : Nat) (verification_hash : Bytes)
deriving DecidableEq, Repr

/-- The error taxonomy: the six `TrinityError` variants of the source,
plus the two Anchor account-constraint failures under the names the
specification gives them (`DuplicateRecord` for a failing `init` on an
already-existing PDA, `Unauthorized` for a failing `has_one`). -/
inductive TrinityError where
  | ValidatorNotActive
  | AlreadySubmitted
  | VaultMismatch
  | UnauthorizedUser
  | InvalidMerkleProof
  | OperationNotFound
  | DuplicateRecord
  | Unauthorized
deriving DecidableEq, Repr

/-- Ledger state visible to the program: the registry singleton (with
the PDA address it lives at), the proof records keyed by operation id,
the vault verifications keyed by vault id, and the emitted event log. -/
structure ProgramState where
  validator : TrinityValidator
  validator_key : Nat
  proof_records : List (Bytes × ProofRecord)
  verifications : List (Nat × VaultVerification)
  events : List Event
deriving DecidableEq, Repr

/-- PDA lookup for proof records: the record stored under the address
derived from `operation_id`, if any. -/
def lookupProof : List (Bytes × ProofRecord) → Bytes → Option ProofRecord
  | [], _ => none
  | (k, v) :: rest, key => if key = k then some v else lookupProof rest key

/-- Overwrite the proof record stored under a key. -/
def storeProof : List (Bytes × ProofRecord) → Bytes → ProofRecord →
    List (Bytes × ProofRecord)
  | [], _, _ => []
  | (k, v) :: rest, key, nv =>
    if key = k then (k, nv) :: rest else (k, v) :: storeProof rest key nv

/-- PDA lookup for vault verifications. -/
def lookupVerification : List (Nat × VaultVerification) → Nat →
    Option VaultVerification
  | [], _ => none
  | (k, v) :: rest, key => if key = k then some v else lookupVerification rest key

/-- `submit_consensus_proof`.  Anchor first resolves the accounts: `init`
on the proof-record PDA fails when a record for `operation_id` already
exists (`DuplicateRecord`).  The handler then requires the registry
active (`ValidatorNotActive`), computes the Merkle root with
`operation_id` as the leaf, persists the record (Anchor zero-initialises
the account, so `ethereum_tx_hash` is 32 zero bytes), bumps the counter
(`u64` wrap-around), and emits `ProofGenerated`. -/
def submit_consensus_proof (hashv : List Bytes → Bytes) (st : ProgramState)
    (now : Nat) (operation_id : Bytes) (merkle_proof : List Bytes)
    (solana_block_hash : Bytes) (solana_tx_signature : Bytes)
    (solana_block_number : Nat) : Except TrinityError ProgramState :=
  if (lookupProof st.proof_records operation_id).isSome then
    .error .DuplicateRecord
  else if !st.validator.is_active then
    .error .ValidatorNotActive
  else
    let merkle_root := calculate_merkle_root hashv merkle_proof operation_id
    let record : ProofRecord :=
      { operation_id := operation_id
        merkle_root := merkle_root
        merkle_proof := merkle_proof
        solana_block_hash := solana_block_hash
        solana_tx_signature := solana_tx_signature
        solana_block_number := solana_block_number
        timestamp := now
        submitted_to_ethereum := false
        ethereum_tx_hash := List.replicate 32 0
        validator := st.validator_key }
    .ok { st with
      validator := { st.validator with
        total_proofs_submitted :=
          (st.validator.total_proofs_submitted + 1) % 2 ^ 64 }
      proof_records := (operation_id, record) :: st.proof_records
      events := st.events ++
        [.ProofGenerated operation_id merkle_root solana_block_hash
          solana_block_number now] }

/-- `confirm_ethereum_submission`.  Anchor account resolution fails when
no proof record exists at the PDA for `operation_id` (the spec's
`OperationNotFound`).  The handler requires `submitted_to_ethereum`
still false (`AlreadySubmitted`), then flips the flag and stores the
Ethereum transaction hash.  The `caller` is any signer: the `Accounts`
struct places no constraint on it. -/
def confirm_ethereum_submission (st : ProgramState) (caller : Nat)
    (operation_id : Bytes) (ethereum_tx_hash : Bytes) :
    Except TrinityError ProgramState :=
  match lookupProof st.proof_records operation_id with
  | none => .error .OperationNotFound
  | some record =>
    if record.submitted_to_ethereum then
      .error .AlreadySubmitted
    else
      .ok { st with
        proof_records := storeProof st.proof_records operation_id
          { record with
            submitted_to_ethereum := true
            ethereum_tx_hash := ethereum_tx_hash } }

/-- `verify_vault_operation`.  Anchor resolves the registry PDA (it must
exist — it is part of `ProgramState` — with no activity requirement) and
`init`s the verification PDA, failing when one already exists for
`vault_id`.  The handler hashes `(vault_id, operation_type as u8,
amount, user, unix_timestamp)`, persists the record and emits
`OperationVerified`. -/
def verify_vault_operation (hashv : List Bytes → Bytes) (st : ProgramState)
    (now : Nat) (vault_id : Nat) (operation_type : OperationType)
    (amount : Nat) (user : Nat) : Except TrinityError ProgramState :=
  if (lookupVerification st.verifications vault_id).isSome then
    .error .DuplicateRecord
  else
    let verification_hash := hashv
      [u64LeBytes vault_id, [operation_type.toU8], u64LeBytes amount,
        pubkeyBytes user, u64LeBytes now]
    let verification : VaultVerification :=
      { vault_id := vault_id
        operation_type := operation_type
        amount := amount
        user := user
        verification_hash := verification_hash
        timestamp := now
        validator := st.validator_key }
    .ok { st with
      verifications := (vault_id, verification) :: st.verifications
      events := st.events ++
        [.OperationVerified vault_id operation_type amount user
          verification_hash] }

/-- `update_validator`.  Anchor's `has_one = authority` on the registry
PDA fails unless the calling signer is the stored authority (the spec's
`Unauthorized`).  The handler overwrites exactly the fields whose
`Option` argument is present. -/
def update_validator (st : ProgramState) (caller : Nat)
    (new_arbitrum_rpc : Option String) (new_ethereum_bridge : Option Bytes)
    (is_active : Option Bool) : Except TrinityError ProgramState :=
  if caller ≠ st.validator.authority then
    .error .Unauthorized
  else
    let v := st.validator
    let v := match new_arbitrum_rpc with
      | some rpc => { v with arbitrum_rpc_url := rpc }
      | none => v
    let v := match new_ethereum_bridge with
      | some bridge => { v with ethereum_bridge_address := bridge }
      | none => v
    let v := match is_active with
      | some active => { v with is_active := active }
      | none => v
    .ok { st with validator := v }

/-- A concrete operation id used by witnesses. -/
def op1 : Bytes := List.replicate 32 1

/-- A concrete block hash used by witnesses. -/
def bh1 : Bytes := List.replicate 32 2

/-- A concrete transaction signature used by witnesses. -/
def sig1 : Bytes := List.replicate 64 3

/-- A concrete freshly-initialised registry state used by witnesses. -/
def stW : ProgramState :=
  { validator :=
      { authority := 1
        ethereum_bridge_address := List.replicate 20 4
        validator_ethereum_address := List.replicate 20 5
        arbitrum_rpc_url := "https://sepolia-rollup.example"
        total_proofs_submitted := 0
        last_processed_operation := 0
        is_active := true
        bump := 255 }
    validator_key := 9
    proof_records := []
    verifications := []
    events := [] }

/-- A concrete unconfirmed proof record used by witnesses. -/
def recW : ProofRecord :=
  { operation_id := op1
    merkle_root := op1
    merkle_proof := []
    solana_block_hash := bh1
    solana_tx_signature := sig1
    solana_block_number := 7
    timestamp := 11
    submitted_to_ethereum := false
    ethereum_tx_hash := List.replicate 32 0
    validator := 9 }

/-- `stW` with the record `recW` already present. -/
def stW2 : ProgramState := { stW with proof_records := [(op1, recW)] }

/-- `stW2` with the registry deactivated. -/
def stInactiveDup : ProgramState :=
  { stW2 with validator := { stW2.validator with is_active := false } }

/-- `stW` with the registry deactivated. -/
def stInactive : ProgramState :=
  { stW with validator := { stW.validator with is_active := false } }

/-- `bytesLt` is asymmetric. -/
theorem bytesLt_asymm : ∀ a b : Bytes, bytesLt a b = true → bytesLt b a = false
  | [], [], h => by simp [bytesLt] at h
  | [], _ :: _, _ => by simp [bytesLt]
  | _ :: _, [], h => by simp [bytesLt] at h
  | a :: as, b :: bs, h => by
    by_cases hab : a < b
    · simp [bytesLt, hab, Nat.lt_asymm hab]
    · by_cases hba : b < a
      · simp [bytesLt, hab, hba] at h
      · have : a = b := Nat.le_antisymm (Nat.not_lt.mp hba) (Nat.not_lt.mp hab)
        subst this
        simp [bytesLt] at h ⊢
        exact bytesLt_asymm as bs h

/-- `bytesLt` is connected: mutually incomparable byte strings are equal. -/
theorem bytesLt_conn : ∀ a b : Bytes,
    bytesLt a b = false → bytesLt b a = false → a = b
  | [], [], _, _ => rfl
  | [], _ :: _, h, _ => by simp [bytesLt] at h
  | _ :: _, [], _, h => by simp [bytesLt] at h
  | a :: as, b :: bs, h, h' => by
    by_cases hab : a < b
    · simp [bytesLt, hab] at h
    · by_cases hba : b < a
      · simp [bytesLt, hba, Nat.not_lt.mpr (Nat.le_of_lt hba)] at h'
      · have hev : a = b := Nat.le_antisymm (Nat.not_lt.mp hba) (Nat.not_lt.mp hab)
        subst hev
        simp [bytesLt] at h h'
        rw [bytesLt_conn as bs h h']

/-- C7: For every leaf L, the Merkle verifier applied to L and the empty
sibling path returns L unchanged: `Merkle(L, []) = L`. -/
theorem calculate_merkle_root_nil (hashv : List Bytes → Bytes) (leaf : Bytes) :
    calculate_merkle_root hashv [] leaf = leaf := rfl

/-- C6: For all byte strings L and S, `Merkle(L, [S]) = Merkle(S, [L])`:
the lexicographic tie-break orders the two operands before hashing, so
each pairwise combination is commutative. -/
theorem calculate_merkle_root_single_comm (hashv : List Bytes → Bytes)
    (L S : Bytes) :
    calculate_merkle_root hashv [S] L = calculate_merkle_root hashv [L] S := by
  unfold calculate_merkle_root
  simp only [List.foldl]
  rcases hLS : bytesLt L S with _ | _
  · rcases hSL : bytesLt S L with _ | _
    · rw [bytesLt_conn L S hLS hSL]
    · simp [hLS, hSL]
  · rw [bytesLt_asymm L S hLS]
    simp [hLS]

/-- Storing under a present key is seen by a subsequent lookup. -/
theorem lookupProof_storeProof :
    ∀ (l : List (Bytes × ProofRecord)) (key : Bytes) (nv r : ProofRecord),
      lookupProof l key = some r →
      lookupProof (storeProof l key nv) key = some nv
  | [], _, _, _, h => by simp [lookupProof] at h
  | (k, v) :: rest, key, nv, r, h => by
    by_cases hk : key = k
    · simp [lookupProof, storeProof, hk]
    · simp only [lookupProof, storeProof, if_neg hk] at h ⊢
      exact lookupProof_storeProof rest key nv r h

/-- Successful confirmation, explicitly: with an unconfirmed record
present, `confirm_ethereum_submission` returns the state whose record
has the flag set and the remote transaction hash stored. -/
theorem confirm_ethereum_submission_ok (st : ProgramState) (caller : Nat)
    (operation_id ethereum_tx_hash : Bytes) (r : ProofRecord)
    (hr : lookupProof st.proof_records operation_id = some r)
    (hflag : r.submitted_to_ethereum = false) :
    confirm_ethereum_submission st caller operation_id ethereum_tx_hash
      = .ok { st with
          proof_records := storeProof st.proof_records operation_id
            { r with
              submitted_to_ethereum := true
              ethereum_tx_hash := ethereum_tx_hash } } := by
  unfold confirm_ethereum_submission
  rw [hr]
  simp [hflag]

/-- C1: With the registry active and no record yet for the operation id,
`submit_consensus_proof` succeeds, persists a record whose Merkle root is
the section-4.1 verifier applied with the operation id as leaf, whose
`submitted_to_ethereum` flag is false and whose remaining fields are the
given inputs (the Ethereum tx hash still zeroed), increments the
total-proofs counter by exactly one, and emits one `ProofGenerated`
event with the operation id, computed root, block hash, block height and
the record's timestamp. -/
theorem submit_consensus_proof_correct (hashv : List Bytes → Bytes)
    (st : ProgramState) (now : Nat) (operation_id : Bytes)
    (merkle_proof : List Bytes) (solana_block_hash solana_tx_signature : Bytes)
    (solana_block_number : Nat)
    (hactive : st.validator.is_active = true)
    (hfresh : lookupProof st.proof_records operation_id = none)
    (hcount : st.validator.total_proofs_submitted + 1 < 2 ^ 64) :
    ∃ st', submit_consensus_proof hashv st now operation_id merkle_proof
        solana_block_hash solana_tx_signature solana_block_number = .ok st' ∧
      lookupProof st'.proof_records operation_id = some
        { operation_id := operation_id
          merkle_root := calculate_merkle_root hashv merkle_proof operation_id
          merkle_proof := merkle_proof
          solana_block_hash := solana_block_hash
          solana_tx_signature := solana_tx_signature
          solana_block_number := solana_block_number
          timestamp := now
          submitted_to_ethereum := false
          ethereum_tx_hash := List.replicate 32 0
          validator := st.validator_key } ∧
      st'.validator.total_proofs_submitted
        = st.validator.total_proofs_submitted + 1 ∧
      st'.events = st.events ++
        [.ProofGenerated operation_id
          (calculate_merkle_root hashv merkle_proof operation_id)
          solana_block_hash solana_block_number now] := by
  unfold submit_consensus_proof
  rw [hfresh]
  simp only [Option.isSome_none, Bool.false_eq_true, if_false, hactive,
    Bool.not_true, ite_false]
  exact ⟨_, rfl, by simp [lookupProof], Nat.mod_eq_of_lt hcount, rfl⟩

/-- Witness for C1 at a concrete fresh registry and inputs. -/
theorem submit_consensus_proof_correct_witness :
    stW.validator.is_active = true ∧
    lookupProof stW.proof_records op1 = none ∧
    ∃ st', submit_consensus_proof hashvModel stW 11 op1 [] bh1 sig1 7
        = .ok st' ∧
      st'.validator.total_proofs_submitted = 1 ∧
      st'.events = [.ProofGenerated op1 op1 bh1 7 11] := by
  obtain ⟨st', h1, _, h3, h4⟩ :=
    submit_consensus_proof_correct hashvModel stW 11 op1 [] bh1 sig1 7
      rfl rfl (by decide)
  exact ⟨rfl, rfl, st', h1, h3, h4⟩

/-- C2: `confirm_ethereum_submission` fails with `OperationNotFound` when
no record exists, fails with `AlreadySubmitted` when the record's flag is
already set (a failed transaction leaves the record unchanged), and
otherwise succeeds exactly once: it sets the flag, stores the remote tx
hash, and every later confirmation attempt for the id fails. -/
theorem confirm_ethereum_submission_spec (st : ProgramState) (caller : Nat)
    (operation_id ethereum_tx_hash : Bytes) :
    (lookupProof st.proof_records operation_id = none →
      confirm_ethereum_submission st caller operation_id ethereum_tx_hash
        = .error .OperationNotFound) ∧
    (∀ r, lookupProof st.proof_records operation_id = some r →
      r.submitted_to_ethereum = true →
      confirm_ethereum_submission st caller operation_id ethereum_tx_hash
        = .error .AlreadySubmitted) ∧
    (∀ r, lookupProof st.proof_records operation_id = some r →
      r.submitted_to_ethereum = false →
      ∃ st', confirm_ethereum_submission st caller operation_id ethereum_tx_hash
          = .ok st' ∧
        lookupProof st'.proof_records operation_id = some
          { r with submitted_to_ethereum := true
                   ethereum_tx_hash := ethereum_tx_hash } ∧
        ∀ (caller' : Nat) (h' : Bytes),
          confirm_ethereum_submission st' caller' operation_id h'
            = .error .AlreadySubmitted) := by
  refine ⟨fun h => ?_, fun r hr hflag => ?_, fun r hr hflag => ?_⟩
  · unfold confirm_ethereum_submission
    rw [h]
  · unfold confirm_ethereum_submission
    rw [hr]
    simp [hflag]
  · have hlook : lookupProof
        (storeProof st.proof_records operation_id
          { r with submitted_to_ethereum := true
                   ethereum_tx_hash := ethereum_tx_hash }) operation_id
        = some { r with submitted_to_ethereum := true
                        ethereum_tx_hash := ethereum_tx_hash } :=
      lookupProof_storeProof st.proof_records operation_id _ r hr
    refine ⟨_, confirm_ethereum_submission_ok st caller operation_id
      ethereum_tx_hash r hr hflag, hlook, fun caller' h' => ?_⟩
    unfold confirm_ethereum_submission
    rw [hlook]
    simp

/-- Witness for C2 at a concrete state holding one unconfirmed record. -/
theorem confirm_ethereum_submission_spec_witness :
    ∃ st', confirm_ethereum_submission stW2 5 op1 (List.replicate 32 9)
        = .ok st' ∧
      lookupProof st'.proof_records op1 = some
        { recW with submitted_to_ethereum := true
                    ethereum_tx_hash := List.replicate 32 9 } ∧
      ∀ (caller' : Nat) (h' : Bytes),
        confirm_ethereum_submission st' caller' op1 h'
          = .error .AlreadySubmitted :=
  (confirm_ethereum_submission_spec stW2 5 op1 (List.replicate 32 9)).2.2
    recW rfl rfl

/-- C3: With the registry active and the operation id fresh, the first
`submit_consensus_proof` succeeds, and a second submission for the same
operation id — with any inputs, in particular also with the registry
still active — fails with `DuplicateRecord` (the `init` constraint on
the record's derived address), the failed transaction leaving the record
created by the first call in place: at most one record per id. -/
theorem submit_consensus_proof_twice (hashv : List Bytes → Bytes)
    (st : ProgramState) (now : Nat) (operation_id : Bytes)
    (merkle_proof : List Bytes) (solana_block_hash solana_tx_signature : Bytes)
    (solana_block_number : Nat)
    (hactive : st.validator.is_active = true)
    (hfresh : lookupProof st.proof_records operation_id = none) :
    ∃ st', submit_consensus_proof hashv st now operation_id merkle_proof
        solana_block_hash solana_tx_signature solana_block_number = .ok st' ∧
      (∀ (now₂ : Nat) (proof₂ : List Bytes) (bh₂ sig₂ : Bytes) (bn₂ : Nat),
        submit_consensus_proof hashv st' now₂ operation_id proof₂ bh₂ sig₂ bn₂
          = .error .DuplicateRecord) ∧
      (lookupProof st'.proof_records operation_id).isSome = true := by
  have hsub : submit_consensus_proof hashv st now operation_id merkle_proof
      solana_block_hash solana_tx_signature solana_block_number
      = .ok { st with
          validator := { st.validator with
            total_proofs_submitted :=
              (st.validator.total_proofs_submitted + 1) % 2 ^ 64 }
          proof_records := (operation_id,
            { operation_id := operation_id
              merkle_root := calculate_merkle_root hashv merkle_proof operation_id
              merkle_proof := merkle_proof
              solana_block_hash := solana_block_hash
              solana_tx_signature := solana_tx_signature
              solana_block_number := solana_block_number
              timestamp := now
              submitted_to_ethereum := false
              ethereum_tx_hash := List.replicate 32 0
              validator := st.validator_key }) :: st.proof_records
          events := st.events ++
            [.ProofGenerated operation_id
              (calculate_merkle_root hashv merkle_proof operation_id)
              solana_block_hash solana_block_number now] } := by
    unfold submit_consensus_proof
    rw [hfresh]
    simp [hactive]
  refine ⟨_, hsub, fun now₂ proof₂ bh₂ sig₂ bn₂ => ?_, by simp [lookupProof]⟩
  unfold submit_consensus_proof
  simp [lookupProof]

/-- Witness for C3 at a concrete fresh registry. -/
theorem submit_consensus_proof_twice_witness :
    ∃ st', submit_consensus_proof hashvModel stW 11 op1 [] bh1 sig1 7
        = .ok st' ∧
      submit_consensus_proof hashvModel st' 12 op1 [bh1] bh1 sig1 8
        = .error .DuplicateRecord := by
  obtain ⟨st', h1, h2, _⟩ :=
    submit_consensus_proof_twice hashvModel stW 11 op1 [] bh1 sig1 7 rfl rfl
  exact ⟨st', h1, h2 12 [bh1] bh1 sig1 8⟩

/-- C4 counterexample: with the registry inactive AND a record already
present for the operation id, `submit_consensus_proof` fails with the
duplicate-creation error (Anchor's `init` on the record address fails
before the handler's activity check runs), not with
`ValidatorNotActive` as the claim requires for every input. -/
theorem submit_inactive_existing_counterexample :
    stInactiveDup.validator.is_active = false ∧
    submit_consensus_proof hashvModel stInactiveDup 11 op1 [] bh1 sig1 7
      = .error .DuplicateRecord ∧
    (Except.error TrinityError.DuplicateRecord : Except TrinityError ProgramState)
      ≠ .error .ValidatorNotActive := by
  refine ⟨rfl, ?_, by simp⟩
  unfold submit_consensus_proof
  simp [stInactiveDup, stW2, lookupProof]

/-- C4 (amended): whenever the registry's active flag is false the
submission aborts with no record created, no counter increment and no
notification; the error is `ValidatorNotActive` when no record exists
for the operation id, while for an already-used operation id the
duplicate-creation failure of the record's derived address takes
precedence. -/
theorem submit_consensus_proof_inactive (hashv : List Bytes → Bytes)
    (st : ProgramState) (now : Nat) (operation_id : Bytes)
    (merkle_proof : List Bytes) (solana_block_hash solana_tx_signature : Bytes)
    (solana_block_number : Nat)
    (hinactive : st.validator.is_active = false) :
    submit_consensus_proof hashv st now operation_id merkle_proof
        solana_block_hash solana_tx_signature solana_block_number
      = .error (if (lookupProof st.proof_records operation_id).isSome then
          .DuplicateRecord else .ValidatorNotActive) := by
  unfold submit_consensus_proof
  rcases h : (lookupProof st.proof_records operation_id).isSome with _ | _
  · simp [h, hinactive]
  · simp [h]

/-- Witness for the amended C4: inactive registry, fresh operation id. -/
theorem submit_consensus_proof_inactive_witness :
    stInactive.validator.is_active = false ∧
    submit_consensus_proof hashvModel stInactive 11 op1 [] bh1 sig1 7
      = .error .ValidatorNotActive := by
  have h := submit_consensus_proof_inactive hashvModel stInactive 11 op1 []
    bh1 sig1 7 rfl
  exact ⟨rfl, h⟩

/-- C5: `confirm_ethereum_submission` enforces no caller authorization —
its result never depends on which signer calls it, and on any record
whose flag is still false it succeeds for every caller, storing the
caller-chosen remote transaction hash. -/
theorem confirm_ethereum_submission_caller_independent (st : ProgramState)
    (operation_id ethereum_tx_hash : Bytes) :
    (∀ caller₁ caller₂ : Nat,
      confirm_ethereum_submission st caller₁ operation_id ethereum_tx_hash
        = confirm_ethereum_submission st caller₂ operation_id ethereum_tx_hash) ∧
    (∀ r, lookupProof st.proof_records operation_id = some r →
      r.submitted_to_ethereum = false →
      ∀ caller : Nat, ∃ st',
        confirm_ethereum_submission st caller operation_id ethereum_tx_hash
          = .ok st' ∧
        lookupProof st'.proof_records operation_id = some
          { r with submitted_to_ethereum := true
                   ethereum_tx_hash := ethereum_tx_hash }) := by
  refine ⟨fun caller₁ caller₂ => rfl, fun r hr hflag caller => ?_⟩
  exact ⟨_, confirm_ethereum_submission_ok st caller operation_id
      ethereum_tx_hash r hr hflag,
    lookupProof_storeProof st.proof_records operation_id _ r hr⟩

/-- Witness for C5: two distinct callers on a concrete unconfirmed
record, the second part instantiated at caller 42. -/
theorem confirm_ethereum_submission_caller_independent_witness :
    confirm_ethereum_submission stW2 5 op1 bh1
      = confirm_ethereum_submission stW2 6 op1 bh1 ∧
    ∃ st', confirm_ethereum_submission stW2 42 op1 bh1 = .ok st' ∧
      lookupProof st'.proof_records op1 = some
        { recW with submitted_to_ethereum := true
                    ethereum_tx_hash := bh1 } := by
  have h := confirm_ethereum_submission_caller_independent stW2 op1 bh1
  exact ⟨h.1 5 6, h.2 recW rfl rfl 42⟩

/-- C8: `verify_vault_operation` requires only the registry singleton —
`ProgramState` always carries it — and never consults its active flag:
for every state, active or not, and every fresh vault id it succeeds,
persists the `VaultVerification` record and emits one
`OperationVerified` notification. -/
theorem verify_vault_operation_no_activity_check (hashv : List Bytes → Bytes)
    (st : ProgramState) (now vault_id : Nat) (operation_type : OperationType)
    (amount user : Nat)
    (hfresh : lookupVerification st.verifications vault_id = none) :
    ∃ st', verify_vault_operation hashv st now vault_id operation_type
        amount user = .ok st' ∧
      lookupVerification st'.verifications vault_id = some
        { vault_id := vault_id
          operation_type := operation_type
          amount := amount
          user := user
          verification_hash := hashv
            [u64LeBytes vault_id, [operation_type.toU8], u64LeBytes amount,
              pubkeyBytes user, u64LeBytes now]
          timestamp := now
          validator := st.validator_key } ∧
      st'.validator = st.validator ∧
      st'.events = st.events ++
        [.OperationVerified vault_id operation_type amount user
          (hashv [u64LeBytes vault_id, [operation_type.toU8],
            u64LeBytes amount, pubkeyBytes user, u64LeBytes now])] := by
  unfold verify_vault_operation
  rw [hfresh]
  simp only [Option.isSome_none, Bool.false_eq_true, if_false]
  exact ⟨_, rfl, by simp [lookupVerification], rfl, rfl⟩

/-- Witness for C8 at a concrete DEACTIVATED registry: the call still
succeeds, unlike `submit_consensus_proof`. -/
theorem verify_vault_operation_no_activity_check_witness :
    stInactive.validator.is_active = false ∧
    ∃ st', verify_vault_operation hashvModel stInactive 11 3
        .VaultWithdrawal 500 77 = .ok st' ∧
      (lookupVerification st'.verifications 3).isSome = true ∧
      st'.validator.is_active = false := by
  obtain ⟨st', h1, h2, h3, _⟩ :=
    verify_vault_operation_no_activity_check hashvModel stInactive 11 3
      .VaultWithdrawal 500 77 rfl
  refine ⟨rfl, st', h1, by rw [h2]; rfl, by rw [h3]; rfl⟩

/-- C9: `update_validator` by any caller other than the stored authority
fails with `Unauthorized` (Anchor's `has_one = authority` constraint),
for every combination of optional arguments — in particular for an
attempted deactivation — and the aborted transaction leaves the
registry unchanged. -/
theorem update_validator_unauthorized (st : ProgramState) (caller : Nat)
    (new_arbitrum_rpc : Option String) (new_ethereum_bridge : Option Bytes)
    (is_active : Option Bool)
    (h : caller ≠ st.validator.authority) :
    update_validator st caller new_arbitrum_rpc new_ethereum_bridge is_active
      = .error .Unauthorized := by
  unfold update_validator
  simp [h]

/-- Witness for C9: caller 2 against stored authority 1, attempting to
set the active flag to false. -/
theorem update_validator_unauthorized_witness :
    update_validator stW 2 none none (some false) = .error .Unauthorized :=
  update_validator_unauthorized stW 2 none none (some false) (by decide)

/-- C10: a call by the stored authority succeeds; each present optional
argument overwrites exactly its registry field, each absent one leaves
its field untouched, every other registry field is unchanged, and the
rest of the state (records, verifications, events, addresses) is
untouched. -/
theorem update_validator_frame (st : ProgramState) (caller : Nat)
    (new_arbitrum_rpc : Option String) (new_ethereum_bridge : Option Bytes)
    (is_active : Option Bool)
    (h : caller = st.validator.authority) :
    ∃ v', update_validator st caller new_arbitrum_rpc new_ethereum_bridge
        is_active = .ok { st with validator := v' } ∧
      (∀ r, new_arbitrum_rpc = some r → v'.arbitrum_rpc_url = r) ∧
      (new_arbitrum_rpc = none →
        v'.arbitrum_rpc_url = st.validator.arbitrum_rpc_url) ∧
      (∀ b, new_ethereum_bridge = some b → v'.ethereum_bridge_address = b) ∧
      (new_ethereum_bridge = none →
        v'.ethereum_bridge_address = st.validator.ethereum_bridge_address) ∧
      (∀ a, is_active = some a → v'.is_active = a) ∧
      (is_active = none → v'.is_active = st.validator.is_active) ∧
      v'.authority = st.validator.authority ∧
      v'.validator_ethereum_address = st.validator.validator_ethereum_address ∧
      v'.total_proofs_submitted = st.validator.total_proofs_submitted ∧
      v'.last_processed_operation = st.validator.last_processed_operation ∧
      v'.bump = st.validator.bump := by
  have hnot : ¬ caller ≠ st.validator.authority := fun hc => hc h
  unfold update_validator
  rw [if_neg hnot]
  rcases new_arbitrum_rpc with _ | rpc <;>
    rcases new_ethereum_bridge with _ | bridge <;>
      rcases is_active with _ | active <;>
        exact ⟨_, rfl, by simp, by simp, by simp, by simp, by simp, by simp,
          rfl, rfl, rfl, rfl, rfl⟩

/-- Witness for C10: the authority updates the RPC endpoint and the
active flag while leaving the bridge address absent. -/
theorem update_validator_frame_witness :
    ∃ v', update_validator stW 1 (some "https://new.example") none
        (some false) = .ok { stW with validator := v' } ∧
      v'.arbitrum_rpc_url = "https://new.example" ∧
      v'.is_active = false ∧
      v'.ethereum_bridge_address = stW.validator.ethereum_bridge_address ∧
      v'.authority = stW.validator.authority ∧
      v'.total_proofs_submitted = stW.validator.total_proofs_submitted := by
  obtain ⟨v', heq, hr, _, _, hbn, ha, _, hauth, _, htot, _, _⟩ :=
    update_validator_frame stW 1 (some "https://new.example") none
      (some false) rfl
  exact ⟨v', heq, hr _ rfl, ha _ rfl, hbn rfl, hauth, htot⟩
